import Mathlib

/-!
Verification development for the async PDF-export lambda.

The definitions below are a shallow embedding of the repository's code:

* `capturePDFDownload` / `pollForFile` (services/puppeteer-service.js, the
  `PuppeteerService` variant whose poll loop carries the retry mechanism):
  the poll loop is embedded as a step function over per-tick observations,
  with the scratch directory modelled as a list of (name, size) entries.
  Wall-clock timers (the outer `setTimeout` rejection and the 2s settle
  delay) are real-time constructs and are not part of the model; the
  deadline is represented by the poll-count bound `maxPolls`, exactly as
  the code derives it (`Math.floor(this.timeout / pollInterval)`).
* `generatePDF` and the Lambda `handler` (index.js): embedded as functions
  from stage outcomes to a result carrying the browser launch/close event
  trace, the tokens handed to the upload and email services, and the
  HTTP-style response.
* `UploadService.uploadPDF` field resolution and `buildCloudFrontUrl`
  (services/upload-service.js).
* `EmailService.sendNotifications` / `sendNotificationsWithRetry`
  (services/email-service.js).
* `getEnvironmentUrls` (utils/validation.js) and
  `ErrorHandler.categorizeError` / error status codes (utils/error-handler
  section of the same file).
-/

namespace AsyncExport

/-! ## Scratch-directory model

`/tmp` is modelled as a list of files, each a name plus a byte size.
`fs.readdirSync(...).filter(f => f.endsWith(".pdf"))` is `pdfNames`;
`fs.readFileSync` on a name yields that entry's size (the buffer length);
`fs.unlinkSync` removes the entry with that name. -/

structure FsFile where
  name : String
  size : Nat
deriving Repr, DecidableEq

/-- `f.endsWith(".pdf")`, as a character-list suffix test. -/
def endsWithPdf (n : String) : Bool :=
  decide (".pdf".toList <:+ n.toList)

/-- `fs.readdirSync(this.downloadPath).filter((f) => f.endsWith(".pdf"))` -/
def pdfNames (dir : List FsFile) : List String :=
  (dir.filter (fun f => endsWithPdf f.name)).map (fun f => f.name)

/-- Byte length of `fs.readFileSync(filePath)` for the entry named `n`. -/
def readFileSize (dir : List FsFile) (n : String) : Nat :=
  match dir.find? (fun f => f.name == n) with
  | some f => f.size
  | none => 0

/-- `fs.unlinkSync(filePath)`: after it, no directory entry has that name. -/
def unlinkFile (dir : List FsFile) (n : String) : List FsFile :=
  dir.filter (fun f => f.name != n)

/-! ## Poll-loop state machine (`capturePDFDownload` / `pollForFile`) -/

/-- The DOM snapshot taken by `page.evaluate` on a tick: the parsed
percentage (if a `(\d+)%` match was found) and the `isExporting` flag. -/
structure ProgressInfo where
  progress : Option Nat
  isExporting : Bool
deriving Repr, DecidableEq

/-- External observations of one poll tick: the progress snapshot (`none`
when `page.evaluate` threw and the error was swallowed), whether a retry
navigation issued on this tick would succeed, and the files the browser
dropped into the scratch directory since the previous listing. -/
structure Tick where
  progressInfo : Option ProgressInfo
  retryNavOk : Bool
  appeared : List FsFile
deriving Repr, DecidableEq

/-- The mutable loop variables of `pollForFile`, plus the directory. -/
structure PollState where
  polls : Nat
  retryAttempts : Nat
  wasExporting : Bool
  lastLoggedProgress : Int
  dir : List FsFile
deriving Repr, DecidableEq

/-- `const pollInterval = 1000` (milliseconds). -/
def pollIntervalMs : Nat := 1000

/-- `this.timeout = parseInt(process.env.TIMEOUT_MS) || 450000`. -/
def defaultTimeoutMs : Nat := 450000

/-- `const maxRetries = 2`. -/
def maxRetries : Nat := 2

/-- `const maxPolls = Math.floor(this.timeout / pollInterval)`. -/
def maxPollsOf (timeoutMs : Nat) : Nat := timeoutMs / pollIntervalMs

/-- `wasExporting && !progressInfo.isExporting && (progressInfo.progress || 0) < 100` -/
def stallDetected (s : PollState) (pi : ProgressInfo) : Bool :=
  s.wasExporting && !pi.isExporting && decide (pi.progress.getD 0 < 100)

/-- The progress-logging block: `lastLoggedProgress` is updated when a
percentage is present and differs from the last logged one by at least 5
(or nothing was logged yet, `-1`). -/
def updateLastLogged (lastLogged : Int) (pi : ProgressInfo) : Int :=
  match pi.progress with
  | some p =>
    if lastLogged = -1 || ((p : Int) - lastLogged).natAbs ≥ 5 then (p : Int) else lastLogged
  | none => lastLogged

/-- The progress/retry portion of one tick, before the directory check:
`polls++`, the progress evaluation, the retry mechanism and the
`wasExporting` tracking.  Returns the updated state, whether a retry
navigation was attempted, and whether the tick returns early (a successful
retry navigation resets the counters and skips the file check). -/
def retryPhase (s : PollState) (t : Tick) : PollState × Bool × Bool :=
  let polls := s.polls + 1
  let dir := s.dir ++ t.appeared
  match t.progressInfo with
  | none =>
    (⟨polls, s.retryAttempts, s.wasExporting, s.lastLoggedProgress, dir⟩, false, false)
  | some pi =>
    let lastLogged := updateLastLogged s.lastLoggedProgress pi
    if s.retryAttempts < maxRetries then
      if stallDetected s pi then
        if t.retryNavOk then
          -- successful re-navigation: `polls = 0; wasExporting = false;
          -- lastLoggedProgress = -1;` then `return` (file check skipped)
          (⟨0, s.retryAttempts + 1, false, -1, dir⟩, true, true)
        else
          -- `page.goto` threw: the attempt was counted, the loop falls
          -- through to the state tracking and the file check
          (⟨polls, s.retryAttempts + 1, s.wasExporting || pi.isExporting, lastLogged, dir⟩,
            true, false)
      else
        (⟨polls, s.retryAttempts, s.wasExporting || pi.isExporting, lastLogged, dir⟩,
          false, false)
    else
      (⟨polls, s.retryAttempts, s.wasExporting, lastLogged, dir⟩, false, false)

/-- Result of one poll tick. -/
inductive TickResult where
  | next (s : PollState) (renav : Bool)
  | detected (fileName : String) (bufferLen : Nat) (detectDir : List FsFile)
      (finalDir : List FsFile) (renav : Bool)
  | timedOut (renav : Bool)
deriving Repr, DecidableEq

/-- The directory check of a tick: list the directory, diff against the
initial snapshot, and either read-and-delete the first new PDF, time out
when `polls >= maxPolls`, or continue. -/
def fileCheck (maxPolls : Nat) (initialFiles : List String) (s : PollState)
    (renav : Bool) : TickResult :=
  match (pdfNames s.dir).filter (fun n => !(initialFiles.contains n)) with
  | n :: _ => .detected n (readFileSize s.dir n) s.dir (unlinkFile s.dir n) renav
  | [] => if s.polls ≥ maxPolls then .timedOut renav else .next s renav

/-- One full iteration of `pollForFile`. -/
def pollTick (maxPolls : Nat) (initialFiles : List String) (s : PollState)
    (t : Tick) : TickResult :=
  match retryPhase s t with
  | (s', renav, true) => .next s' renav
  | (s', renav, false) => fileCheck maxPolls initialFiles s' renav

/-- Terminal outcome of a capture run. -/
inductive CaptureOutcome where
  | success (bufferLen : Nat) (fileName : String) (detectDir : List FsFile)
      (finalDir : List FsFile)
  | failure (msg : String)
  | pending (s : PollState)
deriving Repr, DecidableEq

/-- A capture run's outcome together with instrumentation: poll ticks
executed, retry navigations attempted, and `readFileSync` calls made. -/
structure RunResult where
  outcome : CaptureOutcome
  ticks : Nat
  renavs : Nat
  reads : Nat
deriving Repr, DecidableEq

/-- `reject(new Error("PDF download not detected within timeout period"))` -/
def timeoutMsg : String := "PDF download not detected within timeout period"

/-- Run the poll loop over a finite supply of tick observations. -/
def runPoll (maxPolls : Nat) (initialFiles : List String) :
    PollState → List Tick → RunResult
  | s, [] => ⟨.pending s, 0, 0, 0⟩
  | s, t :: ts =>
    match pollTick maxPolls initialFiles s t with
    | .next s' renav =>
      let r := runPoll maxPolls initialFiles s' ts
      ⟨r.outcome, r.ticks + 1, r.renavs + (if renav then 1 else 0), r.reads⟩
    | .detected n len ddir fdir renav =>
      ⟨.success len n ddir fdir, 1, if renav then 1 else 0, 1⟩
    | .timedOut renav =>
      ⟨.failure timeoutMsg, 1, if renav then 1 else 0, 0⟩

/-- Page state observed right after the initial navigation:
`isLoginPage: window.location.href.includes("/auth/login")`. -/
structure NavState where
  isLoginPage : Bool
  pageUrl : String
deriving Repr, DecidableEq

/-- Loop variables as initialised before the first tick. -/
def initialPollState (dir : List FsFile) : PollState :=
  ⟨0, 0, false, -1, dir⟩

/-- `throw new Error(`Authentication failed - redirected to login page: ...`)` -/
def loginRedirectMsg (url : String) : String :=
  "Authentication failed - redirected to login page: " ++ url

/-- `capturePDFDownload`: snapshot the initial PDFs, navigate, fail
immediately on a login redirect, otherwise run the poll loop. -/
def capturePDFDownload (maxPolls : Nat) (initialDir : List FsFile)
    (nav : NavState) (trace : List Tick) : RunResult :=
  let initialFiles := pdfNames initialDir
  if nav.isLoginPage then
    ⟨.failure (loginRedirectMsg nav.pageUrl), 0, 0, 0⟩
  else
    runPoll maxPolls initialFiles (initialPollState initialDir) trace

/-- Every PDF listed in `dir` was already in the initial snapshot: the
directory diff finds nothing new. -/
def allPdfKnown (initialFiles : List String) (dir : List FsFile) : Bool :=
  (pdfNames dir).all (fun n => initialFiles.contains n)

/-- A tick whose snapshot cannot trigger the stall heuristic: either the
DOM evaluation failed, or the page still reports an export in progress. -/
def tickNeverStalls (t : Tick) : Bool :=
  match t.progressInfo with
  | none => true
  | some pi => pi.isExporting

/-! ## Error categorization (`ErrorHandler.categorizeError`) -/

/-- A JavaScript `error.code` value: a string (`"ETIMEDOUT"`, ...) or a
number (the code `401` is compared with `===` against a number). -/
inductive JsCode where
  | str (s : String)
  | num (n : Nat)
deriving Repr, DecidableEq, BEq

/-- `String.prototype.includes` on lowered message text. -/
def containsStr (s pat : String) : Bool :=
  decide (pat.toList <:+: s.toList)

/-- `message.toLowerCase()` (ASCII lowering, as in the messages at hand). -/
def lowerStr (s : String) : String :=
  ⟨s.data.map Char.toLower⟩

/-- The `errorCode` strings of the `LambdaError` subclasses. -/
inductive ErrorCode where
  | TIMEOUT_ERROR
  | SERVICE_UNAVAILABLE
  | AUTHENTICATION_ERROR
  | PDF_GENERATION_ERROR
  | FILE_SYSTEM_ERROR
  | MEMORY_ERROR
  | INTERNAL_ERROR
deriving Repr, DecidableEq

/-- `ErrorHandler.categorizeError`: keyword heuristics over the lowered
message, in source order. -/
def categorizeError (msg : String) (code : Option JsCode) : ErrorCode :=
  let m := lowerStr msg
  if containsStr m "timeout" || containsStr m "timed out" || code == some (.str "ETIMEDOUT") then
    .TIMEOUT_ERROR
  else if containsStr m "econnrefused" || containsStr m "enotfound" || containsStr m "network" then
    .SERVICE_UNAVAILABLE
  else if containsStr m "unauthorized" || containsStr m "authentication" || code == some (.num 401) then
    .AUTHENTICATION_ERROR
  else if containsStr m "chrome" || containsStr m "browser" || containsStr m "puppeteer" then
    .PDF_GENERATION_ERROR
  else if containsStr m "enoent" || containsStr m "eacces" || containsStr m "file" then
    .FILE_SYSTEM_ERROR
  else if containsStr m "out of memory" || containsStr m "heap" then
    .MEMORY_ERROR
  else
    .INTERNAL_ERROR

/-- `statusCode` of the `LambdaError` subclass each category constructs
(`TimeoutError` 408, `ServiceUnavailableError` 503, `AuthenticationError`
401, the rest 500); `formatErrorResponse` returns `error.statusCode`. -/
def categorizedStatus : ErrorCode → Nat
  | .TIMEOUT_ERROR => 408
  | .SERVICE_UNAVAILABLE => 503
  | .AUTHENTICATION_ERROR => 401
  | .PDF_GENERATION_ERROR => 500
  | .FILE_SYSTEM_ERROR => 500
  | .MEMORY_ERROR => 500
  | .INTERNAL_ERROR => 500

/-! ## Environment tables (`getEnvironmentUrls`, `buildCloudFrontUrl`) -/

structure EnvUrls where
  frontendUrl : String
  backendUrl : String
deriving Repr, DecidableEq

/-- The `staging` entry of `urlMappings` (also the `prod` value, marked
"TBC, using staging for now" in the source). -/
def stagingUrls : EnvUrls :=
  ⟨"https://staging.surveys.59club.com", "https://staging.api.surveys.59club.com/api"⟩

/-- The *own* properties of the `urlMappings` object literal of
`getEnvironmentUrls` (the five keys the literal declares; no other key is
an own property). -/
def urlMappings (env : String) : Option EnvUrls :=
  if env = "local" then
    some ⟨"https://dev.survey.59club.studiographene.xyz",
          "https://dev.surveyapi.59club.studiographene.xyz/api"⟩
  else if env = "dev" then
    some ⟨"https://dev.survey.59club.studiographene.xyz",
          "https://dev.surveyapi.59club.studiographene.xyz/api"⟩
  else if env = "qa" then
    some ⟨"https://qa.survey.59club.studiographene.xyz",
          "https://qa.surveyapi.59club.studiographene.xyz/api"⟩
  else if env = "staging" then some stagingUrls
  else if env = "prod" then some stagingUrls
  else none

/-- Result of a JavaScript property read on an object literal: an *own*
entry of the literal, a member inherited from `Object.prototype` (every
such member is a function or an object, hence truthy), or `undefined`. -/
inductive JsProp (α : Type) where
  | own (a : α)
  | protoMember
  | absent
deriving Repr, DecidableEq

/-- The property names every object literal inherits from
`Object.prototype`. -/
def objectProtoKeys : List String :=
  ["constructor", "hasOwnProperty", "isPrototypeOf", "propertyIsEnumerable",
   "toLocaleString", "toString", "valueOf", "__proto__", "__defineGetter__",
   "__defineSetter__", "__lookupGetter__", "__lookupSetter__"]

/-- `urlMappings[env]` as a JavaScript property read: an own entry for the
five declared keys, the inherited `Object.prototype` member for its
property names, `undefined` otherwise. -/
def urlMappingsJs (env : String) : JsProp EnvUrls :=
  match urlMappings env with
  | some u => .own u
  | none => if env ∈ objectProtoKeys then .protoMember else .absent

/-- `return urlMappings[env] || urlMappings.staging`: an own entry and an
inherited `Object.prototype` member are both truthy and returned as-is
(the latter is *not* a URL pair); only `undefined` falls back to the
staging entry. -/
def getEnvironmentUrls (env : String) : JsProp EnvUrls :=
  match urlMappingsJs env with
  | .own u => .own u
  | .protoMember => .protoMember
  | .absent => .own stagingUrls

/-- The `staging` entry of `cloudFrontDomains` (also the `prod` value,
"Use staging for now"). -/
def stagingAssetDomain : String := "club59-uat-assets-origin.s3.eu-west-1.amazonaws.com"

/-- The *own* properties of the `cloudFrontDomains` object literal of
`buildCloudFrontUrl`. -/
def cloudFrontDomainTable (env : String) : Option String :=
  if env = "local" then some "dev.assets.59club.studiographene.xyz"
  else if env = "dev" then some "dev.assets.59club.studiographene.xyz"
  else if env = "qa" then some "qa.assets.59club.studiographene.xyz"
  else if env = "staging" then some stagingAssetDomain
  else if env = "prod" then some stagingAssetDomain
  else none

/-- `cloudFrontDomains[this.environment]` as a JavaScript property read. -/
def cloudFrontDomainsJs (env : String) : JsProp String :=
  match cloudFrontDomainTable env with
  | some d => .own d
  | none => if env ∈ objectProtoKeys then .protoMember else .absent

/-- `cloudFrontDomains[this.environment] || cloudFrontDomains.staging`
with prototype-chain lookup: an inherited `Object.prototype` member is
truthy, so the staging fallback applies only to `undefined`. -/
def cloudFrontDomainJs (env : String) : JsProp String :=
  match cloudFrontDomainsJs env with
  | .own d => .own d
  | .protoMember => .protoMember
  | .absent => .own stagingAssetDomain

/-- The domain string `buildCloudFrontUrl` interpolates for a genuine
environment name (an own entry, or the staging fallback when the
environment is not an own key and not an `Object.prototype` member name —
for the latter, JavaScript would interpolate the inherited member instead;
see `cloudFrontDomainJs`). -/
def cloudFrontDomain (env : String) : String :=
  (cloudFrontDomainTable env).getD stagingAssetDomain

/-- `fileLocation.startsWith(pat)`, as a character-list test. -/
def startsWithStr (s pat : String) : Bool :=
  decide (pat.toList <+: s.toList)

/-- `buildCloudFrontUrl`: a location already starting with `http://` or
`https://` is returned as-is, anything else is resolved against the
environment's asset domain. -/
def buildCloudFrontUrl (env fileLocation : String) : String :=
  if startsWithStr fileLocation "http://" || startsWithStr fileLocation "https://" then
    fileLocation
  else
    "https://" ++ cloudFrontDomain env ++ "/" ++ fileLocation

/-! ## Upload response resolution (`uploadPDF`) -/

/-- The four accepted shapes of the upload response body:
`response.data.fileLocation`, `response.data.data?.fileLocation`,
`response.data.file?.location`, `response.data.url`.  A missing field is
`none`; a present field holds a string (the empty string is falsy in the
`||` chain, like a missing field). -/
structure UploadResponseData where
  fileLocation : Option String
  dataFileLocation : Option String
  fileDotLocation : Option String
  url : Option String
deriving Repr, DecidableEq

/-- JavaScript `a || b` on string-valued fields: `a` wins unless it is
missing or empty. -/
def jsOrStr (a b : Option String) : Option String :=
  match a with
  | some s => if s = "" then b else some s
  | none => b

/-- `response.data.fileLocation || response.data.data?.fileLocation ||
response.data.file?.location || response.data.url`. -/
def extractFileLocation (d : UploadResponseData) : Option String :=
  jsOrStr d.fileLocation (jsOrStr d.dataFileLocation (jsOrStr d.fileDotLocation d.url))

/-- The tail of `uploadPDF`: `if (!fileLocation) throw ...;
return this.buildCloudFrontUrl(fileLocation)`. -/
def resolveUploadUrl (env : String) (d : UploadResponseData) : Except String String :=
  match extractFileLocation d with
  | none => .error "Upload response missing file location or URL"
  | some loc =>
    if loc = "" then .error "Upload response missing file location or URL"
    else .ok (buildCloudFrontUrl env loc)

/-! ## Email notifications (`sendNotifications`, `sendNotificationsWithRetry`) -/

/-- Outcome of one `axios.post` to the email endpoint: an HTTP status, a
refused connection, or a timeout. -/
inductive HttpAttempt where
  | status (n : Nat)
  | connRefused
  | timedOut
deriving Repr, DecidableEq

/-- `sendNotifications`: axios resolves 2xx responses and rejects others
with `error.response.status`; the explicit check accepts only 200/201;
the catch block maps causes to specific messages. -/
def sendNotifications (a : HttpAttempt) : Except String Unit :=
  match a with
  | .connRefused => .error "Unable to connect to email service"
  | .timedOut => .error "Email service timeout exceeded"
  | .status n =>
    if 200 ≤ n ∧ n < 300 then
      -- axios resolved; `if (response.status !== 200 && response.status !== 201) throw`
      if n ≠ 200 ∧ n ≠ 201 then
        .error ("Email sending failed: Email API returned status: " ++ toString n)
      else .ok ()
    else if n = 401 then .error "Email service authentication failed"
    else if n = 429 then .error "Email service rate limit exceeded"
    else if n ≥ 500 then .error "Email service temporarily unavailable"
    else .error ("Email sending failed: Request failed with status code " ++ toString n)

/-- `const delay = Math.pow(2, attempt - 1) * 1000; // 1s, 2s, 4s...` -/
def emailRetryDelay (attempt : Nat) : Nat := 2 ^ (attempt - 1) * 1000

/-- `error.message.includes("authentication") || error.message.includes("401")` -/
def isEmailAuthError (msg : String) : Bool :=
  containsStr msg "authentication" || containsStr msg "401"

/-- Default `maxRetries` of `sendNotificationsWithRetry`. -/
def emailMaxRetries : Nat := 3

instance {ε α : Type} [DecidableEq ε] [DecidableEq α] : DecidableEq (Except ε α)
  | .error a, .error b =>
    if h : a = b then isTrue (by rw [h]) else isFalse (by intro hh; cases hh; exact h rfl)
  | .error _, .ok _ => isFalse (by intro h; cases h)
  | .ok _, .error _ => isFalse (by intro h; cases h)
  | .ok a, .ok b =>
    if h : a = b then isTrue (by rw [h]) else isFalse (by intro hh; cases hh; exact h rfl)

/-- Result of `sendNotificationsWithRetry`: the succeeding attempt number
or the thrown message, the backoff delays actually waited, and the number
of attempts made. -/
structure RetryResult where
  outcome : Except String Nat
  delays : List Nat
  attemptsMade : Nat
deriving Repr, DecidableEq

/-- The `for (attempt = 1; attempt <= maxRetries; attempt++)` loop body:
`outcomes i` is the HTTP outcome of the i-th attempt; an authentication
message is re-thrown at once; otherwise a backoff delay is waited when
attempts remain, and after the loop the aggregate error is thrown. -/
def emailRetryGo (outcomes : Nat → HttpAttempt) (maxR : Nat) :
    Nat → Nat → String → RetryResult
  | _, 0, lastErr =>
    ⟨.error ("Email notifications failed after " ++ toString maxR ++ " attempts: " ++ lastErr),
      [], 0⟩
  | attempt, remaining + 1, _ =>
    match sendNotifications (outcomes attempt) with
    | .ok () => ⟨.ok attempt, [], 1⟩
    | .error e =>
      if isEmailAuthError e then ⟨.error e, [], 1⟩
      else if attempt < maxR then
        let rest := emailRetryGo outcomes maxR (attempt + 1) remaining e
        ⟨rest.outcome, emailRetryDelay attempt :: rest.delays, rest.attemptsMade + 1⟩
      else
        let rest := emailRetryGo outcomes maxR (attempt + 1) remaining e
        ⟨rest.outcome, rest.delays, rest.attemptsMade + 1⟩

/-- `sendNotificationsWithRetry(params, maxRetries = 3)`. -/
def sendNotificationsWithRetry (outcomes : Nat → HttpAttempt) (maxR : Nat) : RetryResult :=
  emailRetryGo outcomes maxR 1 maxR ""

/-! ## Pipeline (`generatePDF` and the Lambda handler) -/

/-- Browser lifecycle events, for the resource-leak invariant. -/
inductive BrowserEvent where
  | launch
  | close
deriving Repr, DecidableEq, BEq

/-- Stage outcomes of one `generatePDF` call: whether `launchBrowser`
succeeds, the token `authenticateViaPuppeteer` returns (`none` = it
throws), and the capture outcome (error message or buffer length). -/
structure GenInput where
  launchOk : Bool
  authToken : Option String
  captureResult : Except String Nat
deriving Repr

/-- What `generatePDF` produces: on success the `{ browser, pdfBuffer,
accessToken }` triple (browser left open), on failure nothing; plus the
browser event trace and the number of `authenticateViaPuppeteer` calls
(each performs at most one login). -/
structure GenOutput where
  result : Option (String × Nat)
  events : List BrowserEvent
  authAttempts : Nat
deriving Repr, DecidableEq

/-- `generatePDF`: launch, authenticate, capture; on any error inside the
`try` the browser is closed before the error propagates; on success the
browser is returned open. -/
def generatePDF (i : GenInput) : GenOutput :=
  if !i.launchOk then ⟨none, [], 0⟩
  else
    match i.authToken with
    | none => ⟨none, [.launch, .close], 1⟩
    | some tok =>
      match i.captureResult with
      | .error _ => ⟨none, [.launch, .close], 1⟩
      | .ok len => ⟨some (tok, len), [.launch], 1⟩

/-- Stage outcomes of one handler invocation. -/
structure HandlerInput where
  validationErrors : List String
  gen : GenInput
  uploadOk : Bool
  emailOk : Bool
deriving Repr

/-- The handler's observable behaviour: HTTP-style response, browser
event trace, login count, and the tokens the upload and email service
constructors received. -/
structure HandlerOutput where
  statusCode : Nat
  success : Bool
  errorField : Option String
  events : List BrowserEvent
  authAttempts : Nat
  uploadToken : Option String
  emailToken : Option String
deriving Repr, DecidableEq

/-- The Lambda `handler` (index.js): 400 on validation failure; otherwise
run `generatePDF`, construct `UploadService` and `EmailService` with the
returned `accessToken`, upload, notify; the inner `finally` closes the
browser when `generatePDF` returned one; the outer catch returns 500 with
`error: "Internal server error"`. -/
def handler (i : HandlerInput) : HandlerOutput :=
  if i.validationErrors ≠ [] then
    ⟨400, false, some "Invalid input parameters", [], 0, none, none⟩
  else
    let g := generatePDF i.gen
    match g.result with
    | none =>
      -- generatePDF threw: `browser` is still null, the finally block
      -- closes nothing, the outer catch answers 500
      ⟨500, false, some "Internal server error", g.events, g.authAttempts, none, none⟩
    | some (tok, _len) =>
      if !i.uploadOk then
        ⟨500, false, some "Internal server error", g.events ++ [.close], g.authAttempts,
          some tok, some tok⟩
      else if !i.emailOk then
        ⟨500, false, some "Internal server error", g.events ++ [.close], g.authAttempts,
          some tok, some tok⟩
      else
        ⟨200, true, none, g.events ++ [.close], g.authAttempts, some tok, some tok⟩

/-! ## Poll-loop lemmas -/

lemma retryPhase_stall_navOk (s : PollState) (t : Tick) (pi : ProgressInfo)
    (hpi : t.progressInfo = some pi) (hra : s.retryAttempts < maxRetries)
    (hst : stallDetected s pi = true) (hnav : t.retryNavOk = true) :
    retryPhase s t = (⟨0, s.retryAttempts + 1, false, -1, s.dir ++ t.appeared⟩, true, true) := by
  simp [retryPhase, hpi, hra, hst, hnav]

lemma retryPhase_ra (s : PollState) (t : Tick) :
    ((retryPhase s t).2.1 = true →
      (retryPhase s t).1.retryAttempts = s.retryAttempts + 1 ∧ s.retryAttempts < maxRetries) ∧
    ((retryPhase s t).2.1 = false →
      (retryPhase s t).1.retryAttempts = s.retryAttempts) := by
  unfold retryPhase
  cases hpi : t.progressInfo with
  | none => simp
  | some pi =>
    simp only
    split_ifs with h1 h2 h3 <;> simp_all

lemma retryPhase_benign (s : PollState) (t : Tick)
    (h : tickNeverStalls t = true ∨ maxRetries ≤ s.retryAttempts) :
    (retryPhase s t).1.polls = s.polls + 1 ∧
    (retryPhase s t).1.retryAttempts = s.retryAttempts ∧
    (retryPhase s t).1.dir = s.dir ++ t.appeared ∧
    (retryPhase s t).2 = (false, false) := by
  unfold retryPhase
  cases hpi : t.progressInfo with
  | none => simp
  | some pi =>
    have hstall : stallDetected s pi = false ∨ ¬ s.retryAttempts < maxRetries := by
      rcases h with h | h
      · left
        simp only [tickNeverStalls, hpi] at h
        simp [stallDetected, h]
      · right; omega
    simp only
    split_ifs with h1 h2 <;> simp_all

lemma retryPhase_cases (s : PollState) (t : Tick) :
    (retryPhase s t).2.1 = true ∨
    ((retryPhase s t).1.polls = s.polls + 1 ∧
     (retryPhase s t).1.retryAttempts = s.retryAttempts ∧
     (retryPhase s t).1.dir = s.dir ++ t.appeared ∧
     (retryPhase s t).2 = (false, false)) := by
  unfold retryPhase
  cases hpi : t.progressInfo with
  | none => right; simp
  | some pi =>
    simp only
    split_ifs with h1 h2 h3
    · left; rfl
    · left; rfl
    · right; simp
    · right; simp

lemma fileCheck_cases (mP : Nat) (init : List String) (s : PollState) (renav : Bool) :
    fileCheck mP init s renav = .next s renav ∨
    (∃ n, n ∈ pdfNames s.dir ∧ init.contains n = false ∧
      fileCheck mP init s renav =
        .detected n (readFileSize s.dir n) s.dir (unlinkFile s.dir n) renav) ∨
    fileCheck mP init s renav = .timedOut renav := by
  unfold fileCheck
  cases hnf : (pdfNames s.dir).filter (fun n => !(init.contains n)) with
  | nil =>
    by_cases hp : s.polls ≥ mP
    · right; right; simp [hp]
    · left; simp [hp]
  | cons n l =>
    have hn : n ∈ (pdfNames s.dir).filter (fun n => !(init.contains n)) := by
      rw [hnf]; exact List.mem_cons_self n l
    have hmem := List.mem_filter.mp hn
    right; left
    exact ⟨n, hmem.1, by simpa using hmem.2, rfl⟩

lemma fileCheck_no_new (mP : Nat) (init : List String) (s : PollState) (renav : Bool)
    (h : allPdfKnown init s.dir = true) :
    fileCheck mP init s renav =
      if s.polls ≥ mP then .timedOut renav else .next s renav := by
  unfold fileCheck
  have hnil : (pdfNames s.dir).filter (fun n => !(init.contains n)) = [] := by
    rw [List.filter_eq_nil_iff]
    intro a ha
    have h2 := List.all_eq_true.mp h a ha
    simp at h2 ⊢
    exact h2
  rw [hnil]

lemma allPdfKnown_append (init : List String) (a b : List FsFile) :
    allPdfKnown init (a ++ b) = (allPdfKnown init a && allPdfKnown init b) := by
  simp [allPdfKnown, pdfNames, List.filter_append]

lemma allPdfKnown_self (d : List FsFile) : allPdfKnown (pdfNames d) d = true := by
  rw [allPdfKnown, List.all_eq_true]
  intro n hn
  simpa using hn

lemma runPoll_renavs_le (mP : Nat) (init : List String) :
    ∀ (trace : List Tick) (s : PollState),
      (runPoll mP init s trace).renavs ≤ maxRetries - s.retryAttempts := by
  intro trace
  induction trace with
  | nil => intro s; simp [runPoll]
  | cons t ts ih =>
    intro s
    have hra := retryPhase_ra s t
    rcases hrp : retryPhase s t with ⟨s', renav, skip⟩
    rw [hrp] at hra
    simp only at hra
    have hbudget : renav = true → s'.retryAttempts = s.retryAttempts + 1 ∧
        s.retryAttempts < maxRetries := fun hr => hra.1 hr
    have hkeep : renav = false → s'.retryAttempts = s.retryAttempts := fun hr => hra.2 hr
    cases skip with
    | true =>
      have hpt : pollTick mP init s t = .next s' renav := by
        simp [pollTick, hrp]
      have hih := ih s'
      cases renav with
      | true =>
        obtain ⟨h1, h2⟩ := hbudget rfl
        simp [runPoll, hpt]
        omega
      | false =>
        have h1 := hkeep rfl
        simp [runPoll, hpt]
        omega
    | false =>
      have hpt : pollTick mP init s t = fileCheck mP init s' renav := by
        simp [pollTick, hrp]
      rcases fileCheck_cases mP init s' renav with hfc | ⟨n, _, _, hfc⟩ | hfc <;>
        rw [hfc] at hpt
      · have hih := ih s'
        cases renav with
        | true =>
          obtain ⟨h1, h2⟩ := hbudget rfl
          simp [runPoll, hpt]
          omega
        | false =>
          have h1 := hkeep rfl
          simp [runPoll, hpt]
          omega
      · cases renav with
        | true =>
          obtain ⟨h1, h2⟩ := hbudget rfl
          simp [runPoll, hpt]
          omega
        | false =>
          simp [runPoll, hpt]
      · cases renav with
        | true =>
          obtain ⟨h1, h2⟩ := hbudget rfl
          simp [runPoll, hpt]
          omega
        | false =>
          simp [runPoll, hpt]

lemma runPoll_timeout_run (mP : Nat) (init : List String) :
    ∀ (trace : List Tick) (s : PollState),
      (∀ t ∈ trace, allPdfKnown init t.appeared = true) →
      ((∀ t ∈ trace, tickNeverStalls t = true) ∨ maxRetries ≤ s.retryAttempts) →
      allPdfKnown init s.dir = true →
      s.polls < mP → mP - s.polls ≤ trace.length →
      runPoll mP init s trace = ⟨.failure timeoutMsg, mP - s.polls, 0, 0⟩ := by
  intro trace
  induction trace with
  | nil =>
    intro s _ _ _ hlt hlen
    simp at hlen
    omega
  | cons t ts ih =>
    intro s happ hstall hdir hlt hlen
    have hb : tickNeverStalls t = true ∨ maxRetries ≤ s.retryAttempts := by
      rcases hstall with h | h
      · exact Or.inl (h t (List.mem_cons_self t ts))
      · exact Or.inr h
    have hben := retryPhase_benign s t hb
    rcases hrp : retryPhase s t with ⟨s', renav, skip⟩
    rw [hrp] at hben
    simp only at hben
    obtain ⟨hpolls, hra, hdir', hflags⟩ := hben
    have hrenav : renav = false := by
      have := congrArg Prod.fst hflags; simpa using this
    have hskip : skip = false := by
      have := congrArg Prod.snd hflags; simpa using this
    subst hrenav hskip
    have hpt : pollTick mP init s t = fileCheck mP init s' false := by
      simp [pollTick, hrp]
    have hdirK : allPdfKnown init s'.dir = true := by
      rw [hdir', allPdfKnown_append, hdir]
      simpa using happ t (List.mem_cons_self t ts)
    rw [fileCheck_no_new mP init s' false hdirK] at hpt
    by_cases hend : s'.polls ≥ mP
    · rw [if_pos hend] at hpt
      simp [runPoll, hpt]
      have : mP - s.polls = 1 := by omega
      simp [this]
    · rw [if_neg hend] at hpt
      have hrec := ih s'
        (fun u hu => happ u (List.mem_cons_of_mem t hu))
        (by
          rcases hstall with h | h
          · exact Or.inl (fun u hu => h u (List.mem_cons_of_mem t hu))
          · exact Or.inr (by omega))
        hdirK
        (by omega)
        (by simp at hlen ⊢; omega)
      simp only [runPoll, hpt, hrec]
      have : mP - s'.polls + 1 = mP - s.polls := by omega
      simp [this]

lemma runPoll_no_renav_timeout (mP : Nat) (init : List String) :
    ∀ (trace : List Tick) (s : PollState),
      (∀ t ∈ trace, allPdfKnown init t.appeared = true) →
      allPdfKnown init s.dir = true →
      s.polls < mP → mP - s.polls ≤ trace.length →
      (runPoll mP init s trace).renavs = 0 →
      runPoll mP init s trace = ⟨.failure timeoutMsg, mP - s.polls, 0, 0⟩ := by
  intro trace
  induction trace with
  | nil =>
    intro s _ _ hlt hlen _
    simp at hlen
    omega
  | cons t ts ih =>
    intro s happ hdir hlt hlen hz
    have hc := retryPhase_cases s t
    rcases hrp : retryPhase s t with ⟨s', renav, skip⟩
    rw [hrp] at hc
    simp only at hc
    rcases hc with hc | ⟨hpolls, hra, hdir', hflags⟩
    · -- a retry navigation fires on this tick, contradicting renavs = 0
      subst hc
      cases skip with
      | true =>
        have hpt : pollTick mP init s t = .next s' true := by
          simp [pollTick, hrp]
        simp [runPoll, hpt] at hz
      | false =>
        have hpt : pollTick mP init s t = fileCheck mP init s' true := by
          simp [pollTick, hrp]
        rcases fileCheck_cases mP init s' true with hfc | ⟨n, _, _, hfc⟩ | hfc <;>
          rw [hfc] at hpt <;> simp [runPoll, hpt] at hz
    · have hrenav : renav = false := by
        have := congrArg Prod.fst hflags; simpa using this
      have hskip : skip = false := by
        have := congrArg Prod.snd hflags; simpa using this
      subst hrenav hskip
      have hpt : pollTick mP init s t = fileCheck mP init s' false := by
        simp [pollTick, hrp]
      have hdirK : allPdfKnown init s'.dir = true := by
        rw [hdir', allPdfKnown_append, hdir]
        simpa using happ t (List.mem_cons_self t ts)
      rw [fileCheck_no_new mP init s' false hdirK] at hpt
      by_cases hend : s'.polls ≥ mP
      · rw [if_pos hend] at hpt
        simp [runPoll, hpt]
        have : mP - s.polls = 1 := by omega
        simp [this]
      · rw [if_neg hend] at hpt
        have hz' : (runPoll mP init s' ts).renavs = 0 := by
          simpa [runPoll, hpt] using hz
        have hrec := ih s'
          (fun u hu => happ u (List.mem_cons_of_mem t hu))
          hdirK (by omega) (by simp at hlen ⊢; omega) hz'
        simp [runPoll, hpt, hrec]
        have : mP - s'.polls + 1 = mP - s.polls := by omega
        simp [this]

lemma runPoll_success_inv (mP : Nat) (init : List String) :
    ∀ (trace : List Tick) (s : PollState) (len : Nat) (n : String) (ddir fdir : List FsFile),
      (runPoll mP init s trace).outcome = .success len n ddir fdir →
      len = readFileSize ddir n ∧ fdir = unlinkFile ddir n ∧
      n ∈ pdfNames ddir ∧ init.contains n = false := by
  intro trace
  induction trace with
  | nil =>
    intro s len n ddir fdir h
    simp [runPoll] at h
  | cons t ts ih =>
    intro s len n ddir fdir h
    rcases hrp : retryPhase s t with ⟨s', renav, skip⟩
    cases skip with
    | true =>
      have hpt : pollTick mP init s t = .next s' renav := by
        simp [pollTick, hrp]
      simp [runPoll, hpt] at h
      exact ih s' len n ddir fdir h
    | false =>
      have hpt : pollTick mP init s t = fileCheck mP init s' renav := by
        simp [pollTick, hrp]
      rcases fileCheck_cases mP init s' renav with hfc | ⟨m, hm1, hm2, hfc⟩ | hfc <;>
        rw [hfc] at hpt
      · simp [runPoll, hpt] at h
        exact ih s' len n ddir fdir h
      · simp [runPoll, hpt] at h
        obtain ⟨h1, h2, h3, h4⟩ := h
        subst h1 h2 h3 h4
        exact ⟨rfl, rfl, hm1, hm2⟩
      · simp [runPoll, hpt] at h

/-! ## String lemmas for the error-categorization clause -/

lemma lowerStr_append (a b : String) : lowerStr (a ++ b) = lowerStr a ++ lowerStr b := by
  apply String.ext
  simp [lowerStr, String.data_append]

lemma containsStr_append_left (a b pat : String) (h : containsStr a pat = true) :
    containsStr (a ++ b) pat = true := by
  simp only [containsStr, decide_eq_true_eq] at h ⊢
  have hab : (a ++ b).toList = a.toList ++ b.toList := by
    simp [String.toList, String.data_append]
  rw [hab]
  exact h.trans (List.prefix_append a.toList b.toList).isInfix

lemma loginRedirect_contains_auth (url : String) :
    containsStr (lowerStr (loginRedirectMsg url)) "authentication" = true := by
  rw [loginRedirectMsg, lowerStr_append]
  apply containsStr_append_left
  decide

lemma readFileSize_mem (ddir : List FsFile) (n : String) (h : n ∈ pdfNames ddir) :
    ∃ f ∈ ddir, f.name = n ∧ f.size = readFileSize ddir n := by
  unfold readFileSize
  cases hf : ddir.find? (fun f => f.name == n) with
  | none =>
    exfalso
    simp [pdfNames] at h
    obtain ⟨f, ⟨hfmem, _⟩, hname⟩ := h
    have := List.find?_eq_none.mp hf f hfmem
    simp [hname] at this
  | some f =>
    have hmem := List.mem_of_find?_eq_some hf
    have hp := List.find?_some hf
    simp at hp
    exact ⟨f, hmem, hp, rfl⟩

lemma unlinkFile_not_mem (ddir : List FsFile) (n : String) :
    ∀ f ∈ unlinkFile ddir n, f.name ≠ n := by
  intro f hf
  have := List.mem_filter.mp hf
  simpa using this.2

/-! ## Claim theorems -/

/-- C1: stall-retry budget of the capture loop.  (i) A capture run never
performs more than `maxRetries = 2` re-navigations.  (ii) On a tick whose
snapshot shows the export no longer active after it was active, with last
percentage below 100, and with budget remaining, the engine re-navigates
and resets its poll counter and progress tracking (`polls = 0`,
`wasExporting = false`, `lastLoggedProgress = -1`), consuming one unit of
budget.  (iii) Once the budget is exhausted, a run in which no new file
appears performs no further re-navigation and ends in the
timeout failure, whatever the progress snapshots show. -/
theorem capture_stall_retry_budget :
    (∀ (mP : Nat) (initialDir : List FsFile) (nav : NavState) (trace : List Tick),
        (capturePDFDownload mP initialDir nav trace).renavs ≤ maxRetries) ∧
    (∀ (mP : Nat) (init : List String) (s : PollState) (t : Tick) (pInfo : ProgressInfo),
        t.progressInfo = some pInfo → s.retryAttempts < maxRetries →
        stallDetected s pInfo = true → t.retryNavOk = true →
        pollTick mP init s t =
          .next ⟨0, s.retryAttempts + 1, false, -1, s.dir ++ t.appeared⟩ true) ∧
    (∀ (mP : Nat) (init : List String) (trace : List Tick) (s : PollState),
        maxRetries ≤ s.retryAttempts →
        (∀ t ∈ trace, allPdfKnown init t.appeared = true) →
        allPdfKnown init s.dir = true →
        s.polls < mP → mP - s.polls ≤ trace.length →
        runPoll mP init s trace = ⟨.failure timeoutMsg, mP - s.polls, 0, 0⟩) := by
  refine ⟨?_, ?_, ?_⟩
  · intro mP initialDir nav trace
    unfold capturePDFDownload
    by_cases h : nav.isLoginPage
    · simp [h]
    · simp only [h, if_false, Bool.false_eq_true]
      have := runPoll_renavs_le mP (pdfNames initialDir) trace (initialPollState initialDir)
      simpa [initialPollState] using this
  · intro mP init s t pInfo hpi hra hst hnav
    simp [pollTick, retryPhase_stall_navOk s t pInfo hpi hra hst hnav]
  · intro mP init trace s hra happ hdir hlt hlen
    exact runPoll_timeout_run mP init trace s happ (Or.inr hra) hdir hlt hlen

/-- Witness for C1: a concrete stall tick with remaining budget resets the
counters, and a concrete exhausted-budget run ends in the timeout failure
with no re-navigation. -/
theorem capture_stall_retry_budget_witness :
    pollTick 450 [] ⟨7, 1, true, 35, []⟩ ⟨some ⟨some 40, false⟩, true, []⟩ =
      .next ⟨0, 2, false, -1, []⟩ true ∧
    runPoll 3 [] ⟨0, 2, true, -1, []⟩
        [⟨some ⟨some 40, false⟩, true, []⟩, ⟨some ⟨some 40, false⟩, true, []⟩,
         ⟨some ⟨some 40, false⟩, true, []⟩] =
      ⟨.failure timeoutMsg, 3, 0, 0⟩ := by
  constructor
  · have h := capture_stall_retry_budget.2.1 450 [] ⟨7, 1, true, 35, []⟩
      ⟨some ⟨some 40, false⟩, true, []⟩ ⟨some 40, false⟩ rfl (by decide) (by decide) rfl
    simpa using h
  · have h := capture_stall_retry_budget.2.2 3 []
      [⟨some ⟨some 40, false⟩, true, []⟩, ⟨some ⟨some 40, false⟩, true, []⟩,
       ⟨some ⟨some 40, false⟩, true, []⟩]
      ⟨0, 2, true, -1, []⟩ (by decide) (by decide) (by decide) (by decide) (by decide)
    simpa using h

/-- C2: a capture run whose initial navigation lands on the login page
fails immediately with the authentication-failure error: no poll tick is
executed, no file is read, and the thrown message is categorized as
`AUTHENTICATION_ERROR` (whenever the URL does not smuggle in one of the
earlier keywords of the categorization chain). -/
theorem capture_login_redirect_fails_before_poll :
    ∀ (mP : Nat) (initialDir : List FsFile) (url : String) (trace : List Tick),
      capturePDFDownload mP initialDir ⟨true, url⟩ trace =
        ⟨.failure (loginRedirectMsg url), 0, 0, 0⟩ ∧
      (containsStr (lowerStr (loginRedirectMsg url)) "timeout" = false →
       containsStr (lowerStr (loginRedirectMsg url)) "timed out" = false →
       containsStr (lowerStr (loginRedirectMsg url)) "econnrefused" = false →
       containsStr (lowerStr (loginRedirectMsg url)) "enotfound" = false →
       containsStr (lowerStr (loginRedirectMsg url)) "network" = false →
       categorizeError (loginRedirectMsg url) none = .AUTHENTICATION_ERROR) := by
  intro mP initialDir url trace
  constructor
  · simp [capturePDFDownload]
  · intro h1 h2 h3 h4 h5
    simp only [categorizeError]
    rw [h1, h2, h3, h4, h5]
    simp [loginRedirect_contains_auth]

set_option maxRecDepth 8000 in
/-- Witness for C2: the login-redirect failure at a concrete URL, with the
message categorized as an authentication error. -/
theorem capture_login_redirect_fails_before_poll_witness :
    capturePDFDownload 450 [] ⟨true, "https://app.59club.example/auth/login"⟩ [] =
      ⟨.failure (loginRedirectMsg "https://app.59club.example/auth/login"), 0, 0, 0⟩ ∧
    categorizeError (loginRedirectMsg "https://app.59club.example/auth/login") none =
      .AUTHENTICATION_ERROR := by
  have h := capture_login_redirect_fails_before_poll 450 []
    "https://app.59club.example/auth/login" []
  exact ⟨h.1, h.2 (by decide) (by decide) (by decide) (by decide) (by decide)⟩

/-- C3: a capture run in which no new PDF ever appears in the scratch
directory and no retry is triggered (no re-navigation happens during the
run) fails with "PDF download not detected within timeout period" after
exactly `Math.floor(timeout / pollInterval)` poll ticks (the poll
interval being 1000 ms), with no file read. -/
theorem capture_timeout_after_maxPolls :
    ∀ (timeoutMs : Nat) (initialDir : List FsFile) (nav : NavState) (trace : List Tick),
      nav.isLoginPage = false →
      1 ≤ maxPollsOf timeoutMs →
      maxPollsOf timeoutMs ≤ trace.length →
      (∀ t ∈ trace, allPdfKnown (pdfNames initialDir) t.appeared = true) →
      (capturePDFDownload (maxPollsOf timeoutMs) initialDir nav trace).renavs = 0 →
      capturePDFDownload (maxPollsOf timeoutMs) initialDir nav trace =
        ⟨.failure timeoutMsg, maxPollsOf timeoutMs, 0, 0⟩ := by
  intro tms initialDir nav trace hnav h1 hlen happ hz
  unfold capturePDFDownload at hz ⊢
  rw [if_neg (by simp [hnav])] at hz ⊢
  have h := runPoll_no_renav_timeout (maxPollsOf tms) (pdfNames initialDir) trace
    (initialPollState initialDir) happ (allPdfKnown_self initialDir)
    (by simpa [initialPollState] using h1) (by simpa [initialPollState] using hlen)
    hz
  simpa [initialPollState] using h

/-- Witness for C3: a 3000 ms deadline yields exactly 3 poll ticks before
the timeout failure, on a run that never observes an export and never
retries. -/
theorem capture_timeout_after_maxPolls_witness :
    capturePDFDownload (maxPollsOf 3000) [] ⟨false, "u"⟩
        [⟨some ⟨none, false⟩, true, []⟩, ⟨none, true, []⟩, ⟨some ⟨some 0, false⟩, true, []⟩] =
      ⟨.failure timeoutMsg, maxPollsOf 3000, 0, 0⟩ :=
  capture_timeout_after_maxPolls 3000 [] ⟨false, "u"⟩
    [⟨some ⟨none, false⟩, true, []⟩, ⟨none, true, []⟩, ⟨some ⟨some 0, false⟩, true, []⟩]
    rfl (by decide) (by decide) (by decide) (by decide)

/-- C4: whenever a capture run succeeds, the returned buffer length equals
the size of the newly detected file as it stood in the scratch directory
at detection time, and that file is deleted: it is absent from the
directory the run leaves behind (which is exactly the detection-time
directory minus that file). The detected file is a PDF that was not in the
initial snapshot. -/
theorem capture_success_file_consumed :
    ∀ (mP : Nat) (initialDir : List FsFile) (nav : NavState) (trace : List Tick)
      (len : Nat) (n : String) (ddir fdir : List FsFile),
      (capturePDFDownload mP initialDir nav trace).outcome = .success len n ddir fdir →
      len = readFileSize ddir n ∧
      (∃ f ∈ ddir, f.name = n ∧ f.size = len) ∧
      fdir = unlinkFile ddir n ∧
      (∀ f ∈ fdir, f.name ≠ n) ∧
      n ∈ pdfNames ddir ∧
      (pdfNames initialDir).contains n = false := by
  intro mP initialDir nav trace len n ddir fdir h
  unfold capturePDFDownload at h
  by_cases hl : nav.isLoginPage
  · simp [hl] at h
  · rw [if_neg (by simp [hl])] at h
    obtain ⟨h1, h2, h3, h4⟩ := runPoll_success_inv mP (pdfNames initialDir) trace
      (initialPollState initialDir) len n ddir fdir h
    refine ⟨h1, ?_, h2, ?_, h3, h4⟩
    · have := readFileSize_mem ddir n h3
      simpa [← h1] using this
    · rw [h2]
      exact unlinkFile_not_mem ddir n

/-- Witness for C4: a concrete successful run; the 777-byte `out.pdf`
dropped on the first tick is read back at its listed size and removed. -/
theorem capture_success_file_consumed_witness :
    777 = readFileSize [⟨"out.pdf", 777⟩] "out.pdf" ∧
    (∃ f ∈ [(⟨"out.pdf", 777⟩ : FsFile)], f.name = "out.pdf" ∧ f.size = 777) ∧
    ([] : List FsFile) = unlinkFile [⟨"out.pdf", 777⟩] "out.pdf" ∧
    (∀ f ∈ ([] : List FsFile), f.name ≠ "out.pdf") ∧
    "out.pdf" ∈ pdfNames [⟨"out.pdf", 777⟩] ∧
    (pdfNames []).contains "out.pdf" = false :=
  capture_success_file_consumed 5 [] ⟨false, "u"⟩ [⟨none, true, [⟨"out.pdf", 777⟩]⟩]
    777 "out.pdf" [⟨"out.pdf", 777⟩] [] (by decide)

/-- C5: for every request that passes validation and whose browser
launches, exactly one browser is launched and exactly one closed on every
exit path; when authentication or capture fails, `generatePDF` itself
closes the browser before the error propagates (its trace is launch then
close), and otherwise the handler's `finally` block closes it. -/
theorem browser_lifecycle_balanced :
    ∀ i : HandlerInput, i.validationErrors = [] → i.gen.launchOk = true →
      ((handler i).events.count .launch = 1 ∧ (handler i).events.count .close = 1) ∧
      ((generatePDF i.gen).result = none → (generatePDF i.gen).events = [.launch, .close]) := by
  intro i hval hlaunch
  rcases htok : i.gen.authToken with _ | tok
  · have hg : generatePDF i.gen = ⟨none, [.launch, .close], 1⟩ := by
      simp [generatePDF, hlaunch, htok]
    refine ⟨?_, fun _ => by rw [hg]⟩
    simp only [handler, hval, hg]
    decide
  · rcases hcap : i.gen.captureResult with e | len
    · have hg : generatePDF i.gen = ⟨none, [.launch, .close], 1⟩ := by
        simp [generatePDF, hlaunch, htok, hcap]
      refine ⟨?_, fun _ => by rw [hg]⟩
      simp only [handler, hval, hg]
      decide
    · have hg : generatePDF i.gen = ⟨some (tok, len), [.launch], 1⟩ := by
        simp [generatePDF, hlaunch, htok, hcap]
      refine ⟨?_, fun hres => by rw [hg] at hres; simp at hres⟩
      by_cases hu : i.uploadOk <;> by_cases he : i.emailOk <;>
        (simp [handler, hval, hg, hu, he]; decide)

/-- Witness for C5: a fully successful run launches one browser and
closes one. -/
theorem browser_lifecycle_balanced_witness :
    ((handler ⟨[], ⟨true, some "svc-token", .ok 3⟩, true, true⟩).events.count .launch = 1 ∧
     (handler ⟨[], ⟨true, some "svc-token", .ok 3⟩, true, true⟩).events.count .close = 1) ∧
    ((generatePDF ⟨true, some "svc-token", .ok 3⟩).result = none →
      (generatePDF ⟨true, some "svc-token", .ok 3⟩).events = [.launch, .close]) :=
  browser_lifecycle_balanced ⟨[], ⟨true, some "svc-token", .ok 3⟩, true, true⟩ rfl rfl

/-- C6: every successful pipeline run performs exactly one authentication,
and the token it obtained is the one handed to both the upload service and
the email service constructors — no second login happens between PDF
generation and the upload/notification calls. -/
theorem single_login_token_reuse :
    ∀ i : HandlerInput, (handler i).success = true →
      ∃ tok, i.gen.authToken = some tok ∧ (handler i).uploadToken = some tok ∧
        (handler i).emailToken = some tok ∧ (handler i).authAttempts = 1 := by
  intro i hs
  by_cases hval : i.validationErrors = []
  · rcases hl : i.gen.launchOk with _ | _
    · have hg : generatePDF i.gen = ⟨none, [], 0⟩ := by simp [generatePDF, hl]
      simp [handler, hval, hg] at hs
    · rcases htok : i.gen.authToken with _ | tok
      · have hg : generatePDF i.gen = ⟨none, [.launch, .close], 1⟩ := by
          simp [generatePDF, hl, htok]
        simp [handler, hval, hg] at hs
      · rcases hcap : i.gen.captureResult with e | len
        · have hg : generatePDF i.gen = ⟨none, [.launch, .close], 1⟩ := by
            simp [generatePDF, hl, htok, hcap]
          simp [handler, hval, hg] at hs
        · have hg : generatePDF i.gen = ⟨some (tok, len), [.launch], 1⟩ := by
            simp [generatePDF, hl, htok, hcap]
          by_cases hu : i.uploadOk
          · by_cases he : i.emailOk
            · refine ⟨tok, rfl, ?_⟩
              simp [handler, hval, hg, hu, he]
            · simp [handler, hval, hg, hu, he] at hs
          · simp [handler, hval, hg, hu] at hs
  · simp [handler, hval] at hs

/-- Witness for C6: the successful concrete run reuses its token for both
services and logs in exactly once. -/
theorem single_login_token_reuse_witness :
    ∃ tok, (⟨[], ⟨true, some "svc-token", .ok 3⟩, true, true⟩ : HandlerInput).gen.authToken =
        some tok ∧
      (handler ⟨[], ⟨true, some "svc-token", .ok 3⟩, true, true⟩).uploadToken = some tok ∧
      (handler ⟨[], ⟨true, some "svc-token", .ok 3⟩, true, true⟩).emailToken = some tok ∧
      (handler ⟨[], ⟨true, some "svc-token", .ok 3⟩, true, true⟩).authAttempts = 1 :=
  single_login_token_reuse ⟨[], ⟨true, some "svc-token", .ok 3⟩, true, true⟩ rfl

/-- C7: whichever single accepted response shape carries a non-empty
location value, `uploadPDF` resolves the same public URL; an absolute
http(s) location is returned unchanged, any other location is resolved
against the environment's asset domain. -/
theorem upload_location_resolution :
    ∀ (v env : String), v ≠ "" →
      (resolveUploadUrl env ⟨some v, none, none, none⟩ = .ok (buildCloudFrontUrl env v) ∧
       resolveUploadUrl env ⟨none, some v, none, none⟩ = .ok (buildCloudFrontUrl env v) ∧
       resolveUploadUrl env ⟨none, none, some v, none⟩ = .ok (buildCloudFrontUrl env v) ∧
       resolveUploadUrl env ⟨none, none, none, some v⟩ = .ok (buildCloudFrontUrl env v)) ∧
      ((startsWithStr v "http://" || startsWithStr v "https://") = true →
        buildCloudFrontUrl env v = v) ∧
      ((startsWithStr v "http://" || startsWithStr v "https://") = false →
        buildCloudFrontUrl env v = "https://" ++ cloudFrontDomain env ++ "/" ++ v) := by
  intro v env hv
  have hres : ∀ d : UploadResponseData, extractFileLocation d = some v →
      resolveUploadUrl env d = .ok (buildCloudFrontUrl env v) := by
    intro d hd
    simp [resolveUploadUrl, hd, hv]
  refine ⟨⟨?_, ?_, ?_, ?_⟩, fun h => ?_, fun h => ?_⟩
  · exact hres _ (by simp [extractFileLocation, jsOrStr, hv])
  · exact hres _ (by simp [extractFileLocation, jsOrStr, hv])
  · exact hres _ (by simp [extractFileLocation, jsOrStr, hv])
  · exact hres _ (by simp [extractFileLocation, jsOrStr, hv])
  · simp [buildCloudFrontUrl, h]
  · simp [buildCloudFrontUrl, h]

/-- Witness for C7: a relative location resolves identically through all
four shapes against the qa asset domain, and an absolute URL passes
through unchanged. -/
theorem upload_location_resolution_witness :
    (resolveUploadUrl "qa" ⟨some "exports/a.pdf", none, none, none⟩ =
        .ok (buildCloudFrontUrl "qa" "exports/a.pdf") ∧
     resolveUploadUrl "qa" ⟨none, some "exports/a.pdf", none, none⟩ =
        .ok (buildCloudFrontUrl "qa" "exports/a.pdf") ∧
     resolveUploadUrl "qa" ⟨none, none, some "exports/a.pdf", none⟩ =
        .ok (buildCloudFrontUrl "qa" "exports/a.pdf") ∧
     resolveUploadUrl "qa" ⟨none, none, none, some "exports/a.pdf"⟩ =
        .ok (buildCloudFrontUrl "qa" "exports/a.pdf")) ∧
    buildCloudFrontUrl "qa" "exports/a.pdf" =
      "https://" ++ cloudFrontDomain "qa" ++ "/" ++ "exports/a.pdf" ∧
    buildCloudFrontUrl "qa" "https://cdn.example/x.pdf" = "https://cdn.example/x.pdf" :=
  ⟨(upload_location_resolution "exports/a.pdf" "qa" (by decide)).1,
   (upload_location_resolution "exports/a.pdf" "qa" (by decide)).2.2 (by decide),
   (upload_location_resolution "https://cdn.example/x.pdf" "qa" (by decide)).2.1 (by decide)⟩

/-- C8 counterexample: with a 500 on the first attempt and 204 (a 2xx
status) on the later attempts, `sendNotificationsWithRetry` does not
succeed — 204 is rejected by the 200/201 check and retried until the
aggregate failure is thrown — refuting "succeeds if a later attempt
returns 2xx" as stated. -/
theorem email_retry_2xx_counterexample :
    (sendNotificationsWithRetry (fun i => if i = 1 then .status 500 else .status 204)
        emailMaxRetries).outcome =
      .error
        "Email notifications failed after 3 attempts: Email sending failed: Email API returned status: 204" ∧
    (sendNotificationsWithRetry (fun i => if i = 1 then .status 500 else .status 204)
        emailMaxRetries).attemptsMade = 3 ∧
    (200 ≤ 204 ∧ 204 < 300) := by
  refine ⟨by decide, by decide, by decide⟩

/-- C8 amended: a failure caused by a 5xx response is retried with
exponentially doubling backoff (1s then 2s) up to the configured maximum
of 3 attempts, and the dispatch succeeds if a later attempt returns 200 or
201 (the only statuses the service accepts); a 401 response is re-thrown
immediately with no further attempts and no backoff. -/
theorem email_retry_amended :
    ∀ (s1 s2 : Nat), 500 ≤ s1 → 500 ≤ s2 →
      sendNotificationsWithRetry (fun i => if i = 1 then .status s1 else .status 200)
          emailMaxRetries = ⟨.ok 2, [1000], 2⟩ ∧
      sendNotificationsWithRetry
          (fun i => if i = 1 then .status s1 else if i = 2 then .status s2 else .status 201)
          emailMaxRetries = ⟨.ok 3, [1000, 2000], 3⟩ ∧
      sendNotificationsWithRetry (fun _ => .status 401) emailMaxRetries =
        ⟨.error "Email service authentication failed", [], 1⟩ := by
  intro s1 s2 h1 h2
  have hs1 : sendNotifications (.status s1) = .error "Email service temporarily unavailable" := by
    simp only [sendNotifications]
    rw [if_neg (by omega), if_neg (by omega), if_neg (by omega), if_pos (by omega)]
  have hs2 : sendNotifications (.status s2) = .error "Email service temporarily unavailable" := by
    simp only [sendNotifications]
    rw [if_neg (by omega), if_neg (by omega), if_neg (by omega), if_pos (by omega)]
  have hauth : isEmailAuthError "Email service temporarily unavailable" = false := by decide
  have h200 : sendNotifications (.status 200) = .ok () := by decide
  have h201 : sendNotifications (.status 201) = .ok () := by decide
  have hd1 : emailRetryDelay 1 = 1000 := by decide
  have hd2 : emailRetryDelay 2 = 2000 := by decide
  refine ⟨?_, ?_, by decide⟩
  · simp [sendNotificationsWithRetry, emailRetryGo, emailMaxRetries, hs1, hauth, h200, hd1]
  · simp [sendNotificationsWithRetry, emailRetryGo, emailMaxRetries, hs1, hs2, hauth, h201,
      hd1, hd2]

/-- Witness for C8 amended: concrete 5xx statuses on the failing attempts. -/
theorem email_retry_amended_witness :
    sendNotificationsWithRetry (fun i => if i = 1 then .status 500 else .status 200)
        emailMaxRetries = ⟨.ok 2, [1000], 2⟩ ∧
    sendNotificationsWithRetry
        (fun i => if i = 1 then .status 500 else if i = 2 then .status 503 else .status 201)
        emailMaxRetries = ⟨.ok 3, [1000, 2000], 3⟩ ∧
    sendNotificationsWithRetry (fun _ => .status 401) emailMaxRetries =
      ⟨.error "Email service authentication failed", [], 1⟩ :=
  email_retry_amended 500 503 (by decide) (by decide)

/-- C9 counterexample: a run that fails in authentication (the
authenticator throws, so `generatePDF` propagates the failure) is answered
with status 500, not the 401-equivalent the claim requires. -/
theorem handler_status_counterexample :
    (handler ⟨[], ⟨true, none, .error "unused"⟩, true, true⟩).statusCode = 500 ∧
    ¬ (handler ⟨[], ⟨true, none, .error "unused"⟩, true, true⟩).statusCode = 401 := by
  exact ⟨rfl, by decide⟩

/-- C9 amended: the handler answers 400 for input-validation failures and
500 for every other failure, whatever its kind; the 401 and 408 mappings
exist only in the `ErrorHandler` utility's status table
(`formatErrorResponse` returning `error.statusCode`), which the handler
never invokes. -/
theorem handler_status_amended :
    ∀ i : HandlerInput,
      ((handler i).statusCode =
        if i.validationErrors ≠ [] then 400
        else if (handler i).success then 200 else 500) ∧
      categorizedStatus .AUTHENTICATION_ERROR = 401 ∧
      categorizedStatus .TIMEOUT_ERROR = 408 := by
  intro i
  refine ⟨?_, rfl, rfl⟩
  by_cases hval : i.validationErrors = []
  · rcases hg : (generatePDF i.gen).result with _ | ⟨tok, len⟩
    · simp [handler, hval, hg]
    · by_cases hu : i.uploadOk <;> by_cases he : i.emailOk <;>
        simp [handler, hval, hg, hu, he]
  · simp [handler, hval]

/-- C10 counterexample: `"constructor"` is a string outside
{local, dev, qa, staging, prod}, yet JavaScript property lookup finds the
truthy `Object.prototype.constructor` inherited by the object literal, so
neither `urlMappings[env] || urlMappings.staging` nor
`cloudFrontDomains[env] || cloudFrontDomains.staging` falls back to the
staging entry — refuting the claim's universal fallback. -/
theorem env_table_proto_counterexample :
    ("constructor" ≠ "local" ∧ "constructor" ≠ "dev" ∧ "constructor" ≠ "qa" ∧
      "constructor" ≠ "staging" ∧ "constructor" ≠ "prod") ∧
    getEnvironmentUrls "constructor" = .protoMember ∧
    getEnvironmentUrls "constructor" ≠ .own stagingUrls ∧
    cloudFrontDomainJs "constructor" = .protoMember ∧
    cloudFrontDomainJs "constructor" ≠ .own stagingAssetDomain := by
  decide

/-- C10 amended: the environment lookups alias silently, except on the
property names every object literal inherits from `Object.prototype`: for
every string outside the five known environments that is not such a member
name, both lookups fall back to the staging entry; for an
`Object.prototype` member name (such as "constructor") the inherited
truthy member is returned instead of the staging fallback; `prod` is
served the staging URLs and asset domain, and `local` aliases `dev` in
both tables. -/
theorem env_table_aliasing_amended :
    (∀ env : String,
        env ≠ "local" → env ≠ "dev" → env ≠ "qa" → env ≠ "staging" → env ≠ "prod" →
        env ∉ objectProtoKeys →
        getEnvironmentUrls env = .own stagingUrls ∧
        cloudFrontDomainJs env = .own stagingAssetDomain) ∧
    (∀ env ∈ objectProtoKeys,
        getEnvironmentUrls env = .protoMember ∧ cloudFrontDomainJs env = .protoMember) ∧
    getEnvironmentUrls "prod" = getEnvironmentUrls "staging" ∧
    getEnvironmentUrls "local" = getEnvironmentUrls "dev" ∧
    getEnvironmentUrls "staging" = .own stagingUrls ∧
    cloudFrontDomainJs "prod" = cloudFrontDomainJs "staging" ∧
    cloudFrontDomainJs "local" = cloudFrontDomainJs "dev" ∧
    cloudFrontDomainJs "staging" = .own stagingAssetDomain := by
  refine ⟨?_, by decide, by decide, by decide, by decide, by decide, by decide, by decide⟩
  intro env h1 h2 h3 h4 h5 hproto
  have hmap : urlMappings env = none := by
    unfold urlMappings
    rw [if_neg h1, if_neg h2, if_neg h3, if_neg h4, if_neg h5]
  have hdom : cloudFrontDomainTable env = none := by
    unfold cloudFrontDomainTable
    rw [if_neg h1, if_neg h2, if_neg h3, if_neg h4, if_neg h5]
  constructor
  · unfold getEnvironmentUrls urlMappingsJs
    rw [hmap]
    simp [hproto]
  · unfold cloudFrontDomainJs cloudFrontDomainsJs
    rw [hdom]
    simp [hproto]

/-- Witness for C10 amended: the unknown environment name "production"
falls back to the staging URLs and asset domain, while the inherited
property name "toString" yields the prototype member instead. -/
theorem env_table_aliasing_amended_witness :
    (getEnvironmentUrls "production" = .own stagingUrls ∧
     cloudFrontDomainJs "production" = .own stagingAssetDomain) ∧
    (getEnvironmentUrls "toString" = .protoMember ∧
     cloudFrontDomainJs "toString" = .protoMember) :=
  ⟨env_table_aliasing_amended.1 "production" (by decide) (by decide) (by decide)
      (by decide) (by decide) (by decide),
   env_table_aliasing_amended.2.1 "toString" (by decide)⟩

end AsyncExport
